import Mathlib

/-!
Verification of the sucha subtitle provider (src/subliminal/providers/sucha.py)
against its natural-language specification.  The Python module is shallowly
embedded: strings are Lean strings (the provider only handles ASCII data, so
ASCII lowercasing models Python lower), HTTP and archive-library calls are
abstracted as explicit inputs or function parameters, and exceptions become
Except or an explicit error component.
-/

namespace Sucha

/-! Basic string machinery mirroring the Python primitives used by the
provider: ASCII lowercasing, substring membership, startswith, endswith,
and the tail component of os.path.split. -/

/-- ASCII lowercase of a string, modelling Python str.lower on ASCII input. -/
def strLower (s : String) : String := ⟨s.data.map Char.toLower⟩

/-- Tests whether pat occurs at the head of s. -/
def leadsWith : List Char → List Char → Bool
  | _, [] => true
  | [], _ :: _ => false
  | c :: cs, d :: ds => c == d && leadsWith cs ds

/-- Tests whether pat occurs as a contiguous segment of s. -/
def hasSeg : List Char → List Char → Bool
  | [], pat => pat.isEmpty
  | c :: cs, pat => leadsWith (c :: cs) pat || hasSeg cs pat

/-- Python membership test of pat in the string s (substring containment). -/
def strIn (pat s : String) : Bool := hasSeg s.data pat.data

/-- Python s.startswith pat. -/
def strStarts (s pat : String) : Bool := leadsWith s.data pat.data

/-- Python s.endswith pat. -/
def strEnds (s pat : String) : Bool := leadsWith s.data.reverse pat.data.reverse

/-- Accumulator-based scan keeping the characters seen since the last slash. -/
def lastSegAux : List Char → List Char → List Char
  | cur, [] => cur.reverse
  | cur, c :: cs => if c == '/' then lastSegAux [] cs else lastSegAux (c :: cur) cs

/-- Models os.path.split applied to name, keeping the last tuple component:
the part of the path after the final path separator. -/
def lastSeg (s : String) : String := ⟨lastSegAux [] s.data⟩

/-! The JSON scalar values the remote API may put in the year and id fields.
Python json parsing distinguishes integers from floats lexically; the
embedding covers integers, strings, and floats whose value is integral
(str of such a float appends a trailing ".0", as in str applied to 2020.0). -/

/-- A Python scalar as produced by json parsing: an int, a string, or a float
of integral value (the only floats the claims exercise; Python renders them
with a trailing ".0"). -/
inductive PyVal
  | int (n : Int)
  | str (s : String)
  | floatInt (n : Int)
deriving DecidableEq

/-- Python str applied to a PyVal. -/
def pyStr : PyVal → String
  | .int n => toString n
  | .str s => s
  | .floatInt n => toString n ++ ".0"

/-- Numeric value of a PyVal, when it is a number. -/
def pyNumVal : PyVal → Option Int
  | .int n => some n
  | .str _ => none
  | .floatInt n => some n

/-- Modelled from the spec: the video descriptor collaborator (class Video /
Episode of this repository, not under src/).  Per the external-interface
contract it carries a title, an optional year as a string, and, when it is an
episode, series, season and episode fields; isEpisode models the
isinstance check against Episode. -/
structure Video where
  isEpisode : Bool
  title : String
  year : Option String := none
  series : String := ""
  season : Nat := 0
  episode : Nat := 0

/-- One result object of the search JSON array, with the fields the provider
reads: title and alt_title are optional (read with defaults), while year,
release, filename and id are required by the response schema. -/
structure Item where
  title : Option String := none
  alt_title : Option String := none
  year : PyVal
  release : String
  filename : String
  id : PyVal

/-- The SuchaSubtitle record.  The Python attribute release_info stores the
derived display string; the raw release text is kept in
guessed_release_info.  content is None until a download succeeds. -/
structure SuchaSubtitle where
  language : String
  download_id : String
  download_type : String
  guessed_release_info : String
  filename : String
  release_info : String
  found_matches : Finset String
  content : Option (List Nat) := none
deriving DecidableEq

/-- The SuchaSubtitle constructor: stores the identifiers and derives
release_info as the longer of the two description strings, keeping
filename on ties (release_info if len(release_info) > len(filename)
else filename). -/
def SuchaSubtitle.init (language release_info filename download_id
    download_type : String) (ms : Finset String) : SuchaSubtitle :=
  { language := language
    download_id := download_id
    download_type := download_type
    guessed_release_info := release_info
    filename := filename
    release_info :=
      if release_info.length > filename.length then release_info else filename
    found_matches := ms
    content := none }

/-- SuchaSubtitle.get_matches: runs the external guessing pipeline (guessit
then guess_matches, both collaborators outside this module, taken here as
function parameters) on the filename and on the raw release text, unions both
tag sets into found_matches in place, and returns the updated record. -/
def SuchaSubtitle.get_matches {Guess : Type}
    (guess_matches : Video → Guess → Finset String)
    (guessit : String → String → Guess)
    (sub : SuchaSubtitle) (video : Video) : SuchaSubtitle :=
  let typ := if video.isEpisode then "episode" else "movie"
  let m1 := guess_matches video (guessit sub.filename typ)
  let m2 := guess_matches video (guessit sub.guessed_release_info typ)
  { sub with found_matches := sub.found_matches ∪ m1 ∪ m2 }

/-- The tags contributed by one get_matches call on a given record and
video: the union of the guesses on filename and on the raw release text. -/
def SuchaSubtitle.callTags {Guess : Type}
    (guess_matches : Video → Guess → Finset String)
    (guessit : String → String → Guess)
    (sub : SuchaSubtitle) (video : Video) : Finset String :=
  let typ := if video.isEpisode then "episode" else "movie"
  guess_matches video (guessit sub.filename typ) ∪
    guess_matches video (guessit sub.guessed_release_info typ)

/-- Zero-padded rendering of a natural number to minimum width two, as the
Python format specifier 02 on a non-negative int. -/
def fmt02 (n : Nat) : String := if n < 10 then "0" ++ toString n else toString n

/-- Python truthiness fallback video.year or "0": None and the empty string
both fall back to the sentinel. -/
def movieYear (video : Video) : String :=
  match video.year with
  | none => "0"
  | some y => if y.isEmpty then "0" else y

/-- The query parameters built by SuchaProvider.query: for an episode a single
free-text query parameter, for a movie a query parameter holding the title
plus a year parameter. -/
def buildQuery (video : Video) : List (String × String) :=
  if video.isEpisode then
    [("query", video.series ++ " S" ++ fmt02 video.season ++
      "E" ++ fmt02 video.episode)]
  else
    [("query", video.title), ("year", movieYear video)]

/-- The free-text query string sent for this video (the value of the query
parameter). -/
def qquery (video : Video) : String :=
  match buildQuery video with
  | (_, v) :: _ => v
  | [] => ""

/-- The per-item match-tag computation of the search loop: a title tag when
the lower-cased video title occurs in the lower-cased title or alt_title
(alt_title defaulting to the lowered title), a year tag when str of the
result year equals the video year string, and for episodes the strong-match
shortcut adding five tags at once when the lower-cased query string occurs in
either title field. -/
def computeItemMatches (video : Video) (queryStr : String) (item : Item) :
    Finset String :=
  let title := strLower (item.title.getD "")
  let alt_title := strLower (item.alt_title.getD title)
  let m1 : Finset String :=
    if strIn (strLower video.title) title || strIn (strLower video.title) alt_title
    then {"title"} else ∅
  let m2 : Finset String :=
    if video.year = some (pyStr item.year) then {"year"} else ∅
  let m3 : Finset String :=
    if video.isEpisode &&
        (strIn (strLower queryStr) title || strIn (strLower queryStr) alt_title)
    then {"title", "series", "season", "episode", "year"} else ∅
  m1 ∪ m2 ∪ m3

/-- Builds the SuchaSubtitle appended for one result item: language is the
single supported tag, release and filename come from the item, the id is
stringified, the type string records movie or episode, and the matches are
the accumulated per-item tags. -/
def subtitleOfItem (video : Video) (item : Item) : SuchaSubtitle :=
  SuchaSubtitle.init "es" item.release item.filename (pyStr item.id)
    (if video.isEpisode then "episode" else "movie")
    (computeItemMatches video (qquery video) item)

/-- The parsed JSON body of a search response: a top-level object (the empty
signal, whatever its contents) or a top-level array of result items. -/
inductive SearchResponse
  | dict
  | list (items : List Item)

/-- SuchaProvider.query after the HTTP exchange: a dict response yields no
subtitles; a list response is walked in order, appending one subtitle per
item as the Python loop does. -/
def query (video : Video) (results : SearchResponse) : List SuchaSubtitle :=
  match results with
  | .dict => []
  | .list items =>
      items.foldl (fun subtitles item => subtitles ++ [subtitleOfItem video item]) []

/-! The download path.  An archive is its entry listing plus a reading
function; the rarfile and zipfile sniffing and parsing collaborators are
function parameters. -/

/-- An opened archive: the entry name listing and the byte content of each
entry. -/
structure Archive where
  names : List String
  readEntry : String → List Nat

/-- Decides whether one entry name survives the three filters of get_file:
its last path segment does not start with a dot, it ends in .srt
case-insensitively, and its lower-cased name carries no English marker. -/
def acceptableEntry (name : String) : Bool :=
  !(strStarts (lastSeg name) ".") &&
  strEnds (strLower name) ".srt" &&
  !(strIn "[eng]" (strLower name) || strIn ".en." (strLower name) ||
    strIn ".eng." (strLower name))

/-- The scan loop of SuchaProvider.get_file over the remaining listing:
skip dot-leading basenames, skip non .srt entries, skip English-marked
entries, return the bytes of the first survivor, and fail after the last
entry. -/
def getFileLoop (archive : Archive) : List String → Except String (List Nat)
  | [] => .error "Can not find the subtitle in the compressed file"
  | name :: rest =>
    if strStarts (lastSeg name) "." then getFileLoop archive rest
    else if !(strEnds (strLower name) ".srt") then getFileLoop archive rest
    else if strIn "[eng]" (strLower name) || strIn ".en." (strLower name) ||
        strIn ".eng." (strLower name) then getFileLoop archive rest
    else .ok (archive.readEntry name)

/-- SuchaProvider.get_file: scan the full listing in order. -/
def get_file (archive : Archive) : Except String (List Nat) :=
  getFileLoop archive archive.names

/-- SuchaProvider._get_archive: sniff the byte stream with the rarfile
signature test first, then the zipfile one, opening with the matching
reader; fail on unsupported formats.  The two signature tests and the two
readers are the external archive-library collaborators. -/
def getArchive (is_rarfile is_zipfile : List Nat → Bool)
    (rarOpen zipOpen : List Nat → Archive) (content : List Nat) :
    Except String Archive :=
  if is_rarfile content then .ok (rarOpen content)
  else if is_zipfile content then .ok (zipOpen content)
  else .error "Unsupported compressed format"

/-- SuchaProvider.download_subtitle, with the HTTP response status and body
as inputs and the line-ending normalizer as a collaborator parameter.  The
result pairs the subtitle state after the call with the error raised, if
any: raise_for_status fails on 4xx and 5xx statuses, _check_response on any
status other than 200, then the archive is sniffed and scanned, and only
when everything succeeded is content assigned, as the final statement. -/
def download_subtitle (is_rarfile is_zipfile : List Nat → Bool)
    (rarOpen zipOpen : List Nat → Archive)
    (fix_line_ending : List Nat → List Nat)
    (status : Nat) (body : List Nat) (subtitle : SuchaSubtitle) :
    SuchaSubtitle × Option String :=
  if 400 ≤ status then (subtitle, some ("HTTP error: " ++ toString status))
  else if status ≠ 200 then (subtitle, some ("Bad status code: " ++ toString status))
  else
    match getArchive is_rarfile is_zipfile rarOpen zipOpen body with
    | .error e => (subtitle, some e)
    | .ok archive =>
      match get_file archive with
      | .error e => (subtitle, some e)
      | .ok subtitle_file =>
        ({ subtitle with content := some (fix_line_ending subtitle_file) }, none)

/-! Concrete demonstration values used by the witness theorems. -/

/-- A signature test that rejects every byte stream. -/
def noSniff : List Nat → Bool := fun _ => false

/-- An archive reader producing an empty archive, for witnesses in which no
archive is ever opened. -/
def emptyReader : List Nat → Archive := fun _ => ⟨[], fun _ => []⟩

/-- A concrete subtitle record for witnesses. -/
def demoSub : SuchaSubtitle :=
  SuchaSubtitle.init "es" "release text" "file.srt" "42" "movie" ∅

/-! Theorems settling the claims. -/

/-- Appending one image per element from the left is mapping. -/
theorem foldl_append_map {α β : Type} (f : α → β) :
    ∀ (l : List α) (acc : List β),
      l.foldl (fun s i => s ++ [f i]) acc = acc ++ l.map f
  | [], acc => by simp
  | i :: l, acc => by
      rw [List.foldl_cons, foldl_append_map f l (acc ++ [f i])]
      simp

/-- The get_file scan returns the bytes of the first entry of the remaining
listing accepted by all three filters, and the not-found error when none
is. -/
theorem getFileLoop_eq_find (archive : Archive) (l : List String) :
    getFileLoop archive l =
      match l.find? acceptableEntry with
      | some name => .ok (archive.readEntry name)
      | none => .error "Can not find the subtitle in the compressed file" := by
  induction l with
  | nil => rfl
  | cons name rest ih =>
      by_cases h1 : strStarts (lastSeg name) "." = true <;>
      by_cases h2 : strEnds (strLower name) ".srt" = true <;>
      by_cases h3 : (strIn "[eng]" (strLower name) || strIn ".en." (strLower name) ||
          strIn ".eng." (strLower name)) = true <;>
      simp [getFileLoop, List.find?_cons, acceptableEntry, h1, h2, h3, ih]

/-- C1: get_file scans the archive listing in order and returns the bytes of
the first entry whose last path segment does not start with a dot, whose
name ends case-insensitively in .srt, and whose lower-cased name contains
no English marker among the bracketed eng tag, the .en. infix and the
.eng. infix; when no entry qualifies it fails with the subtitle-not-found
error.  On the listing of the example, the accepted entry is movie.srt. -/
theorem C1_get_file_first_acceptable :
    (∀ archive : Archive,
      get_file archive =
        match archive.names.find? acceptableEntry with
        | some name => .ok (archive.readEntry name)
        | none => .error "Can not find the subtitle in the compressed file") ∧
    ["movie.eng.srt", "movie.srt", ".hidden.srt"].find? acceptableEntry
      = some "movie.srt" :=
  ⟨fun archive => getFileLoop_eq_find archive archive.names, by decide⟩

/-- C2 counterexample: for the episode with series Show, season 1 and
episode 2 the code builds the query string with no space between the
season part and the episode part, so it differs from the spelled-out
format of the claim, which has a space before the E. -/
theorem C2_counterexample :
    qquery { isEpisode := true, title := "", series := "Show",
             season := 1, episode := 2 } = "Show S01E02" ∧
    ("Show S01E02" : String) ≠ "Show S01 E02" :=
  ⟨rfl, by decide⟩

/-- C2 amended: for every episode video the query parameter list is the
single free-text parameter whose value is the series name, a space, the
letter S, the zero-padded two-digit season, then immediately the letter E
and the zero-padded two-digit episode, with no space between the season
and episode parts. -/
theorem C2_episode_query_format (video : Video) (h : video.isEpisode = true) :
    buildQuery video = [("query",
      video.series ++ " S" ++
        (if video.season < 10 then "0" ++ toString video.season
         else toString video.season) ++ "E" ++
        (if video.episode < 10 then "0" ++ toString video.episode
         else toString video.episode))] := by
  simp [buildQuery, h, fmt02]

/-- Witness for C2 at the concrete episode Show S01E02. -/
theorem C2_episode_query_format_witness :
    buildQuery { isEpisode := true, title := "", series := "Show",
                 season := 1, episode := 2 } = [("query",
      "Show" ++ " S" ++
        (if 1 < 10 then "0" ++ toString 1 else toString 1) ++ "E" ++
        (if 2 < 10 then "0" ++ toString 2 else toString 2))] :=
  C2_episode_query_format
    { isEpisode := true, title := "", series := "Show", season := 1, episode := 2 }
    rfl

/-- C3 counterexample: with the equal-length strings ab as release text and
cd as filename, the constructor stores the filename, not the release
text, in the derived display field. -/
theorem C3_counterexample :
    (SuchaSubtitle.init "es" "ab" "cd" "1" "movie" ∅).release_info = "cd" ∧
    ("cd" : String) ≠ "ab" :=
  ⟨rfl, by decide⟩

/-- C3 amended: the derived display field equals the filename whenever the
filename is at least as long as the release text (ties keep the
filename), and equals the release text exactly when the release text is
strictly longer. -/
theorem C3_display_info_length_rule (language release filename download_id
    download_type : String) (ms : Finset String) :
    (release.length ≤ filename.length →
      (SuchaSubtitle.init language release filename download_id download_type
        ms).release_info = filename) ∧
    (filename.length < release.length →
      (SuchaSubtitle.init language release filename download_id download_type
        ms).release_info = release) := by
  constructor <;> intro h <;> simp [SuchaSubtitle.init] <;> omega

/-- Witness for C3 at the equal-length pair ab and cd. -/
theorem C3_display_info_length_rule_witness :
    (SuchaSubtitle.init "es" "ab" "cd" "1" "movie" ∅).release_info = "cd" :=
  (C3_display_info_length_rule "es" "ab" "cd" "1" "movie" ∅).1 (by decide)

/-- C4 counterexample: for the movie titled The Long Title and a result
titled Long, the lower-cased result title is a substring of the
lower-cased video title (the vice-versa direction of the claim), yet the
title tag is not added, because the code only tests whether the video
title occurs inside the result titles. -/
theorem C4_counterexample :
    strIn (strLower "Long") (strLower "The Long Title") = true ∧
    "title" ∉ computeItemMatches
      { isEpisode := false, title := "The Long Title", year := some "2000" }
      "The Long Title"
      { title := some "Long", year := .int 1999, release := "r",
        filename := "f", id := .int 7 } :=
  ⟨by decide, by decide⟩

/-- C4 amended: the title tag is added whenever the lower-cased video title
occurs as a substring of the lower-cased result title or of the
lower-cased alt_title (which defaults to the title); containment in the
opposite direction alone does not add the tag. -/
theorem C4_title_tag_forward_containment (video : Video) (queryStr : String)
    (item : Item)
    (h : strIn (strLower video.title) (strLower (item.title.getD "")) = true ∨
      strIn (strLower video.title)
        (strLower (item.alt_title.getD (strLower (item.title.getD "")))) = true) :
    "title" ∈ computeItemMatches video queryStr item := by
  have hcond : (strIn (strLower video.title) (strLower (item.title.getD "")) ||
      strIn (strLower video.title)
        (strLower (item.alt_title.getD (strLower (item.title.getD ""))))) = true := by
    rcases h with h | h <;> simp [h]
  simp only [computeItemMatches, hcond, if_true]
  simp [Finset.mem_union]

/-- Witness for C4: the video title part occurs inside the result title
counterpart, so the title tag is present. -/
theorem C4_title_tag_forward_containment_witness :
    "title" ∈ computeItemMatches
      { isEpisode := false, title := "Part", year := some "2000" } "Part"
      { title := some "Counterpart", year := .int 1999, release := "r",
        filename := "f", id := .int 7 } :=
  C4_title_tag_forward_containment
    { isEpisode := false, title := "Part", year := some "2000" } "Part"
    { title := some "Counterpart", year := .int 1999, release := "r",
      filename := "f", id := .int 7 }
    (Or.inl (by decide))

/-- C5 counterexample: for an episode whose lower-cased query string occurs
in the result title, the strong-match shortcut adds the year tag although
the stringified result year 1999 differs from the video year 2000, so the
year tag is not equivalent to the string equality of the claim. -/
theorem C5_counterexample :
    "year" ∈ computeItemMatches
      { isEpisode := true, title := "t", year := some "2000", series := "Show",
        season := 1, episode := 2 } "Show S01E02"
      { title := some "show s01e02 extra", year := .int 1999, release := "r",
        filename := "f", id := .int 7 } ∧
    some (pyStr (PyVal.int 1999)) ≠ some "2000" :=
  ⟨by decide, by decide⟩

/-- C5 amended: the year tag is present exactly when the stringified result
year equals the video year string, or the video is an episode and the
lower-cased query string occurs in the lower-cased title or alt_title
(the strong-match shortcut, which adds the year tag regardless of the
year fields); in particular for movie videos the tag is equivalent to the
exact string equality, and the integral float year 2020.0 does not match
the video year string 2020 even though the numeric values agree. -/
theorem C5_year_tag_characterisation :
    (∀ (video : Video) (queryStr : String) (item : Item),
      "year" ∈ computeItemMatches video queryStr item ↔
        (video.year = some (pyStr item.year) ∨
          (video.isEpisode = true ∧
            (strIn (strLower queryStr) (strLower (item.title.getD "")) = true ∨
              strIn (strLower queryStr)
                (strLower (item.alt_title.getD (strLower (item.title.getD ""))))
                = true)))) ∧
    ("year" ∉ computeItemMatches
        { isEpisode := false, title := "x", year := some "2020" } "x"
        { title := some "y", year := .floatInt 2020, release := "r",
          filename := "f", id := .int 7 } ∧
      pyNumVal (.floatInt 2020) = pyNumVal (.int 2020) ∧
      pyStr (.floatInt 2020) ≠ pyStr (.int 2020)) := by
  refine ⟨fun video queryStr item => ?_, by decide, by decide, by decide⟩
  by_cases h1 : (strIn (strLower video.title) (strLower (item.title.getD "")) ||
      strIn (strLower video.title)
        (strLower (item.alt_title.getD (strLower (item.title.getD ""))))) = true <;>
  by_cases h2 : video.year = some (pyStr item.year) <;>
  by_cases h3 : video.isEpisode = true <;>
  by_cases h4 : (strIn (strLower queryStr) (strLower (item.title.getD "")) ||
      strIn (strLower queryStr)
        (strLower (item.alt_title.getD (strLower (item.title.getD ""))))) = true <;>
  simp_all [computeItemMatches, Finset.mem_union]

/-- C6: a top-level JSON object yields the empty candidate list, and a
top-level array yields exactly one candidate per element, built from that
element, in the order of the array. -/
theorem C6_response_shape :
    (∀ video : Video, query video .dict = []) ∧
    (∀ (video : Video) (items : List Item),
      query video (.list items) = items.map (subtitleOfItem video)) := by
  refine ⟨fun _ => rfl, fun video items => ?_⟩
  show items.foldl _ [] = _
  rw [foldl_append_map (subtitleOfItem video) items []]
  simp

/-- C7: one get_matches call only ever adds tags, so the accumulated set of
the record is a subset of the returned set, and two consecutive calls
with two videos return the union of the initially accumulated tags with
the tags contributed by each of the two computations. -/
theorem C7_matches_accumulate :
    (∀ (Guess : Type) (gm : Video → Guess → Finset String)
      (gi : String → String → Guess) (sub : SuchaSubtitle) (video : Video),
      sub.found_matches ⊆ (sub.get_matches gm gi video).found_matches) ∧
    (∀ (Guess : Type) (gm : Video → Guess → Finset String)
      (gi : String → String → Guess) (sub : SuchaSubtitle) (v1 v2 : Video),
      ((sub.get_matches gm gi v1).get_matches gm gi v2).found_matches =
        sub.found_matches ∪ sub.callTags gm gi v1 ∪ sub.callTags gm gi v2) := by
  constructor
  · intro Guess gm gi sub video
    exact Finset.subset_union_left.trans Finset.subset_union_left
  · intro Guess gm gi sub v1 v2
    simp [SuchaSubtitle.get_matches, SuchaSubtitle.callTags, Finset.union_assoc]

/-- C8: when a byte stream passes neither the rarfile signature test nor the
zipfile one, the sniffing step fails with the unsupported-format error,
and the whole download fails with that same error whatever the archive
readers would have produced and whatever the subtitle record is — no
archive is opened, so no entry is ever scanned. -/
theorem C8_unsupported_format (is_rarfile is_zipfile : List Nat → Bool)
    (content : List Nat)
    (h1 : is_rarfile content = false) (h2 : is_zipfile content = false) :
    (∀ rarOpen zipOpen : List Nat → Archive,
      getArchive is_rarfile is_zipfile rarOpen zipOpen content =
        .error "Unsupported compressed format") ∧
    (∀ (rarOpen zipOpen : List Nat → Archive)
      (fix_line_ending : List Nat → List Nat) (subtitle : SuchaSubtitle),
      download_subtitle is_rarfile is_zipfile rarOpen zipOpen fix_line_ending
        200 content subtitle =
        (subtitle, some "Unsupported compressed format")) := by
  constructor
  · intro rarOpen zipOpen
    simp [getArchive, h1, h2]
  · intro rarOpen zipOpen fix_line_ending subtitle
    simp [download_subtitle, getArchive, h1, h2]

/-- Witness for C8 on a three-byte stream rejected by both signature
tests. -/
theorem C8_unsupported_format_witness :
    getArchive noSniff noSniff emptyReader emptyReader [0, 1, 2] =
      .error "Unsupported compressed format" ∧
    download_subtitle noSniff noSniff emptyReader emptyReader id 200 [0, 1, 2]
      demoSub = (demoSub, some "Unsupported compressed format") :=
  ⟨(C8_unsupported_format noSniff noSniff [0, 1, 2] rfl rfl).1 emptyReader
      emptyReader,
    (C8_unsupported_format noSniff noSniff [0, 1, 2] rfl rfl).2 emptyReader
      emptyReader id demoSub⟩

/-- C9: for every movie video the query parameter list carries exactly the
free-text query parameter holding the title and the year parameter, whose
value falls back to the sentinel string 0 when the year is absent; no
season or episode parameter is ever present. -/
theorem C9_movie_query_params (video : Video) (h : video.isEpisode = false) :
    (buildQuery video).map Prod.fst = ["query", "year"] ∧
    buildQuery video = [("query", video.title), ("year", movieYear video)] ∧
    (video.year = none → movieYear video = "0") ∧
    "season" ∉ (buildQuery video).map Prod.fst ∧
    "episode" ∉ (buildQuery video).map Prod.fst := by
  exact ⟨by simp [buildQuery, h], by simp [buildQuery, h],
    fun hy => by simp [movieYear, hy], by simp [buildQuery, h],
    by simp [buildQuery, h]⟩

/-- Witness for C9 at a movie with no year. -/
theorem C9_movie_query_params_witness :
    (buildQuery { isEpisode := false, title := "A Movie" }).map Prod.fst =
      ["query", "year"] ∧
    buildQuery { isEpisode := false, title := "A Movie" } =
      [("query", "A Movie"),
        ("year", movieYear { isEpisode := false, title := "A Movie" })] ∧
    (({ isEpisode := false, title := "A Movie" } : Video).year = none →
      movieYear { isEpisode := false, title := "A Movie" } = "0") ∧
    "season" ∉ (buildQuery { isEpisode := false, title := "A Movie" }).map
      Prod.fst ∧
    "episode" ∉ (buildQuery { isEpisode := false, title := "A Movie" }).map
      Prod.fst :=
  C9_movie_query_params { isEpisode := false, title := "A Movie" } rfl

/-- C10: the download either fails — and then the returned subtitle record is
exactly the record passed in, with every field, content included,
unchanged — or succeeds with no error, and then the only field it changes
is the content field, assigned at the very end from the extracted bytes
run through the line-ending normalizer. -/
theorem C10_failure_leaves_candidate_unchanged
    (is_rarfile is_zipfile : List Nat → Bool)
    (rarOpen zipOpen : List Nat → Archive)
    (fix_line_ending : List Nat → List Nat)
    (status : Nat) (body : List Nat) (subtitle : SuchaSubtitle) :
    ((download_subtitle is_rarfile is_zipfile rarOpen zipOpen fix_line_ending
        status body subtitle).1 = subtitle ∧
      (download_subtitle is_rarfile is_zipfile rarOpen zipOpen fix_line_ending
        status body subtitle).2 ≠ none) ∨
    ((download_subtitle is_rarfile is_zipfile rarOpen zipOpen fix_line_ending
        status body subtitle).2 = none ∧
      ∃ bytes : List Nat,
        (download_subtitle is_rarfile is_zipfile rarOpen zipOpen
          fix_line_ending status body subtitle).1 =
          { subtitle with content := some (fix_line_ending bytes) }) := by
  unfold download_subtitle
  split_ifs with h1 h2
  · exact Or.inl ⟨rfl, by simp⟩
  · exact Or.inl ⟨rfl, by simp⟩
  · cases hga : getArchive is_rarfile is_zipfile rarOpen zipOpen body with
    | error e => exact Or.inl ⟨by simp [hga], by simp [hga]⟩
    | ok archive =>
      cases hgf : get_file archive with
      | error e => exact Or.inl ⟨by simp [hga, hgf], by simp [hga, hgf]⟩
      | ok subtitle_file =>
        exact Or.inr ⟨by simp [hga, hgf], subtitle_file, by simp [hga, hgf]⟩

end Sucha
